import Mathlib

/-!
Verification development for the `ietf-info` repository (file `ietf-info.py`),
a script that attributes RFC / Datatracker activities to a named individual.

The Python program is shallowly embedded below.  Python exceptions are
modelled with `Except PyErr`; the mutable global result dictionaries become an
explicit `Stats` record threaded through the functions; the console output
and network requests of a call are collected into a `List Event`.  Byte
strings are `List Nat` (one entry per byte); the text-decoding primitives of
the runtime are a `Decoders` record, with `realDecoders` modelling CPython's
strict UTF-8 decoder and its total Latin-1 decoder.
-/

/-- Python exceptions that the embedded fragments can raise. -/
inductive PyErr where
  | keyError
  | attrError
  | valueError
  | indexError
  | typeError
  | nameError
deriving Repr, DecidableEq

/-- A Python value as stored in the field dictionary built by
`parse_rfc_row` (the program only ever stores ints, strings and bools). -/
inductive PyVal where
  | int (n : Int)
  | str (s : String)
  | bool (b : Bool)
deriving Repr, DecidableEq

/-- Python truthiness of a stored value. -/
def pyTruthy : PyVal → Bool
  | .int n => n != 0
  | .str s => s != ""
  | .bool b => b

/-- Numeric view of a value: Python treats `bool` as an `int`. -/
def pyNumOf : PyVal → Option Int
  | .int n => some n
  | .bool b => some (if b then 1 else 0)
  | .str _ => none

/-- Python `==` on the stored values (numeric values compare numerically,
strings compare as strings, mixed comparisons are `False`, never an error). -/
def pyEq (a b : PyVal) : Bool :=
  match pyNumOf a, pyNumOf b with
  | some x, some y => x == y
  | _, _ =>
    match a, b with
    | .str s, .str t => s == t
    | _, _ => false

/-- Python `>=` on stored values: numeric or string/string comparisons are
fine, mixed `str`/`int` comparisons raise `TypeError`. -/
def pyGe (a b : PyVal) : Except PyErr Bool :=
  match pyNumOf a, pyNumOf b with
  | some x, some y => .ok (decide (y ≤ x))
  | _, _ =>
    match a, b with
    | .str s, .str t => .ok (decide (t ≤ s))
    | _, _ => .error .typeError

/-- Python `x in xs` for a list of values. -/
def pyInList (x : PyVal) (xs : List PyVal) : Bool :=
  xs.any (fun v => pyEq x v)

/-! ### String utilities mirroring the Python `str` methods used

Character-list based so that all concrete evaluations reduce in the kernel.
`\n` is taken as the line separator (the index rows the program consumes use
plain newlines).
-/

/-- The characters Python's `str.strip` / `str.split()` / regex `\s`
treat as whitespace (ASCII range). -/
def isPySpace (c : Char) : Bool :=
  c == ' ' || c == '\t' || c == '\n' || c == '\r' || c == '\x0b' || c == '\x0c'

/-- Is `pre` a prefix of `cs`? -/
def isPrefixL : List Char → List Char → Bool
  | [], _ => true
  | _ :: _, [] => false
  | a :: as, b :: bs => a == b && isPrefixL as bs

/-- Substring occurrence test on character lists. -/
def containsSubL (needle : List Char) : List Char → Bool
  | [] => isPrefixL needle []
  | c :: rest => isPrefixL needle (c :: rest) || containsSubL needle rest

/-- Python `needle in hay` for strings (an empty needle always matches). -/
def pyIn (needle hay : String) : Bool :=
  containsSubL needle.data hay.data

/-- One step of Python `str.split(sep)` with a non-empty separator; the
fuel argument (instantiated with the length of the haystack) keeps the
recursion structural. -/
def splitSubAux (sep : List Char) : Nat → List Char → List (List Char)
  | _, [] => [[]]
  | 0, cs => [cs]
  | fuel + 1, c :: rest =>
    if sep ≠ [] && isPrefixL sep (c :: rest) then
      [] :: splitSubAux sep fuel ((c :: rest).drop sep.length)
    else
      match splitSubAux sep fuel rest with
      | [] => [[c]]
      | chunk :: chunks => (c :: chunk) :: chunks

/-- Python `s.split(sep)` for a non-empty separator string. -/
def pySplitOn (s sep : String) : List String :=
  (splitSubAux sep.data s.data.length s.data).map (fun l => String.mk l)

/-- Python `s.strip()`. -/
def pyStrip (s : String) : String :=
  String.mk (((s.data.dropWhile isPySpace).reverse.dropWhile isPySpace).reverse)

/-- Auxiliary for Python's whitespace `str.split()`. -/
def wsSplitAux : List Char → List Char → List (List Char)
  | [], acc => if acc.isEmpty then [] else [acc.reverse]
  | c :: cs, acc =>
    if isPySpace c then
      if acc.isEmpty then wsSplitAux cs []
      else acc.reverse :: wsSplitAux cs []
    else wsSplitAux cs (c :: acc)

/-- Python `s.split()` (split on runs of whitespace, no empty chunks). -/
def pySplitWs (s : String) : List String :=
  (wsSplitAux s.data []).map (fun l => String.mk l)

/-- Python `s.lower()` (ASCII case folding suffices for the inputs used). -/
def pyLower (s : String) : String := String.mk (s.data.map Char.toLower)

/-- Python `s.upper()`. -/
def pyUpper (s : String) : String := String.mk (s.data.map Char.toUpper)

/-- Python `s.replace(c, '')` for a single character. -/
def pyRemoveChar (s : String) (c : Char) : String :=
  String.mk (s.data.filter (fun d => d != c))

/-- Python `int(s)`: strip whitespace, optional sign, decimal digits. -/
def pyIntOf (s : String) : Option Int :=
  let t := (pyStrip s).data
  let core : Option (List Char × Bool) :=
    match t with
    | '-' :: rest => some (rest, true)
    | '+' :: rest => some (rest, false)
    | rest => some (rest, false)
  match core with
  | some (ds, neg) =>
    if ds.isEmpty || !ds.all Char.isDigit then none
    else
      let n : Nat := ds.foldl (fun acc c => acc * 10 + (c.toNat - 48)) 0
      some (if neg then -(n : Int) else (n : Int))
  | none => none

/-- Python's list `splitlines` + per-line strip + drop empty lines, as done
in `parse_rfc_row`. -/
def pyLines (text : String) : List String :=
  ((pySplitOn text "\n").map pyStrip).filter (fun l => l != "")

/-! ### The Python `dict` built by `parse_rfc_row` -/

/-- A Python `dict` with string keys: an association list with unique keys,
insertion overwriting in place. -/
abbrev PyDict := List (String × PyVal)

/-- `d[k] = v`. -/
def dictSet (d : PyDict) (k : String) (v : PyVal) : PyDict :=
  if d.any (fun p => p.1 == k) then
    d.map (fun p => if p.1 == k then (k, v) else p)
  else d ++ [(k, v)]

/-- `d.get(k)` (no exception). -/
def dictGet (d : PyDict) (k : String) : Option PyVal :=
  (d.find? (fun p => p.1 == k)).map (fun p => p.2)

/-- `d[k]`, raising `KeyError` when absent. -/
def dictGetE (d : PyDict) (k : String) : Except PyErr PyVal :=
  match dictGet d k with
  | some v => .ok v
  | none => .error .keyError

/-! ### Global configuration (the module-level variables of the script) -/

/-- The module-level configuration globals of `ietf-info.py`.  `LAST_YEAR`
is `date.today().year` at run start, so `defaultGlobals` takes it as an
argument. -/
structure Globals where
  NAME : String
  INCLUDE : List String
  FIRST_YEAR : Int
  LAST_YEAR : Int
  FIRST_RFC : Int
  LAST_RFC : Int
  DEBUG : Bool
  VERBOSE : Bool
deriving Repr, DecidableEq

/-- The initial values of the globals (lines 43-57 of the source). -/
def defaultGlobals (todayYear : Int) : Globals :=
  { NAME := ""
    INCLUDE := ["PROPOSED STANDARD", "BEST CURRENT PRACTICE", "HISTORIC",
                "EXPERIMENTAL", "INFORMATIONAL", "ACKNOWLEDGMENTS"]
    FIRST_YEAR := 2022
    LAST_YEAR := todayYear
    FIRST_RFC := 7000
    LAST_RFC := 20000
    DEBUG := false
    VERBOSE := false }

/-! ### Index rows

A `bs4` table row is abstracted to exactly the shape the program reads from
it: the tag name, the first `td`:s `noscript` text (the RFC number), and the
next sibling `td`:s bold text (the title) and full text.  `none` models the
corresponding `bs4` accessor returning `None`.
-/

/-- The sibling `td` cell holding title and description text. -/
structure SiblingTd where
  bText : Option String
  text : String
deriving Repr, DecidableEq

/-- The first `td` cell of a row. -/
structure TdCell where
  noscriptText : Option String
  nextTd : Option SiblingTd
deriving Repr, DecidableEq

/-- A row of the index table, as the program accesses it. -/
structure RawRow where
  name : String
  td : Option TdCell
deriving Repr, DecidableEq

/-- The `elif ':' in line` branch of `parse_rfc_row`: strip parentheses,
split on `', '`, and store each `'key: value'` pair (lower-cased key); a
part without `': '` raises `IndexError` on `key_val_pair[1]`. -/
def parse_kv_line (fields : PyDict) (line : String) : Except PyErr PyDict :=
  let line := pyRemoveChar (pyRemoveChar line '(') ')'
  (pySplitOn line ", ").foldlM
    (fun fl part =>
      match pySplitOn part ": " with
      | [] => .error .indexError
      | [_] => .error .indexError
      | k :: v :: _ => .ok (dictSet fl (pyLower k) (.str v)))
    fields

/-- The `for line in lines[1:]` loop of `parse_rfc_row`. -/
def parse_lines (fields : PyDict) : List String → Except PyErr PyDict
  | [] => .ok fields
  | line :: rest =>
    if pyIn "[" line then
      let toks := pySplitWs line
      if toks.length < 2 then .error .indexError
      else
        match pyIntOf (toks.getD (toks.length - 2) "") with
        | some y => parse_lines (dictSet fields "year" (.int y)) rest
        | none => .error .valueError
    else if pyIn ":" line then
      match parse_kv_line fields line with
      | .ok fields2 => parse_lines fields2 rest
      | .error e => .error e
    else parse_lines fields rest

/-- `parse_rfc_row` (lines 69-88): build the field dictionary of one row. -/
def parse_rfc_row (row : RawRow) : Except PyErr PyDict :=
  match row.td with
  | none => .error .attrError
  | some cell =>
    match cell.noscriptText with
    | none => .error .attrError
    | some ns =>
      match pyIntOf ns with
      | none => .error .valueError
      | some num =>
        match cell.nextTd with
        | none => .error .attrError
        | some sib =>
          match sib.bText with
          | none => .error .attrError
          | some title =>
            let fields := dictSet [] "number" (.int num)
            let fields := dictSet fields "title" (.str title)
            let text := sib.text
            let fields :=
              dictSet fields "issued" (.bool (!(pyIn "Not issued" text)))
            parse_lines fields ((pyLines text).drop 1)

/-- `validate_row` (lines 91-101).  The `and`-chain short-circuits and the
chained comparisons evaluate left to right, exactly as in Python; a missing
`status` / `issued` / `year` / `number` key raises `KeyError` at its point
of use. -/
def validate_row (g : Globals) (row : RawRow) : Except PyErr Bool :=
  if row.name != "tr" then .ok false
  else
    match row.td with
    | none => .error .attrError
    | some cell =>
      if cell.noscriptText.isNone then .ok false
      else
        match parse_rfc_row row with
        | .error e => .error e
        | .ok d =>
          match dictGetE d "status" with
          | .error e => .error e
          | .ok st =>
            if !(pyInList st (g.INCLUDE.map PyVal.str)) then .ok false
            else
              match dictGetE d "issued" with
              | .error e => .error e
              | .ok isd =>
                if !(pyTruthy isd) then .ok false
                else
                  match dictGetE d "year" with
                  | .error e => .error e
                  | .ok y =>
                    match pyGe (.int g.LAST_YEAR) y with
                    | .error e => .error e
                    | .ok c1 =>
                      if !c1 then .ok false
                      else
                        match pyGe y (.int g.FIRST_YEAR) with
                        | .error e => .error e
                        | .ok c2 =>
                          if !c2 then .ok false
                          else
                            match dictGetE d "number" with
                            | .error e => .error e
                            | .ok n =>
                              match pyGe (.int g.LAST_RFC) n with
                              | .error e => .error e
                              | .ok c3 =>
                                if !c3 then .ok false
                                else
                                  match pyGe n (.int g.FIRST_RFC) with
                                  | .error e => .error e
                                  | .ok c4 => .ok c4

/-- The filtering list comprehension of `get_possible_rfcs` (lines 181-182):
`[parse_rfc_row(row) for row in table.contents if validate_row(row)]`.
An exception in either function aborts the whole comprehension. -/
def filter_rows (g : Globals) : List RawRow → Except PyErr (List PyDict)
  | [] => .ok []
  | r :: rs =>
    match validate_row g r with
    | .error e => .error e
    | .ok b =>
      if b then
        match parse_rfc_row r with
        | .error e => .error e
        | .ok d =>
          match filter_rows g rs with
          | .error e => .error e
          | .ok ds => .ok (d :: ds)
      else filter_rows g rs

/-! ### Result aggregation state

The seven module-level result dictionaries (lines 60-66), keyed by RFC
number. -/

/-- A result dictionary `Dict[int, str]`. -/
abbrev ResDict := List (Int × String)

/-- Key membership in a result dictionary. -/
def hasKey (d : ResDict) (k : Int) : Bool := d.any (fun p => p.1 == k)

/-- `d[n] = t` on a result dictionary. -/
def insertRes (d : ResDict) (n : Int) (t : String) : ResDict :=
  if hasKey d n then d.map (fun p => if p.1 == n then (n, t) else p)
  else d ++ [(n, t)]

/-- The seven global result dictionaries. -/
structure Stats where
  AUTHOR : ResDict
  RESPONSIBLE_AD : ResDict
  SHEPHERD : ResDict
  CONTRIBUTOR : ResDict
  BALLOTED : ResDict
  DISCUSS : ResDict
  FAILED_CHECK : ResDict
deriving Repr, DecidableEq

/-- All result dictionaries empty (run start). -/
def emptyStats : Stats := ⟨[], [], [], [], [], [], []⟩

/-! ### Network, decoding, events -/

/-- Result of one `http_get`: raw payload, or a
`requests.exceptions.ConnectionError`. -/
inductive Fetch (α : Type) where
  | connError
  | ok (val : α)
deriving Repr, DecidableEq

/-- The structured record returned by the per-document metadata lookup
(`/doc/rfcN/doc.json`): `authors` names, optional `shepherd`, optional
`ad`; `none` models JSON `null`. -/
structure Metadata where
  authors : List String
  shepherd : Option String
  ad : Option String
deriving Repr, DecidableEq

/-- The runtime's text decoding primitives: `bytes.decode()` (strict UTF-8)
and `bytes.decode('latin-1')`; `none` models `UnicodeDecodeError`. -/
structure Decoders where
  utf8 : List Nat → Option String
  latin1 : List Nat → Option String

/-- CPython's Latin-1 decoder: every byte maps to the code point of its
value, so decoding never fails. -/
def latin1Decode (bs : List Nat) : String :=
  String.mk (bs.map (fun b => Char.ofNat (b % 256)))

/-- Strict UTF-8 decoding of a byte list (CPython `bytes.decode()`):
rejects truncated sequences, overlong forms, surrogates and values above
`0x10FFFF`. -/
def utf8Aux : List Nat → Option (List Char)
  | [] => some []
  | b :: rest =>
    if b < 0x80 then (utf8Aux rest).map (fun cs => Char.ofNat b :: cs)
    else if b < 0xC2 then none
    else if b < 0xE0 then
      match rest with
      | b1 :: rest2 =>
        if 0x80 ≤ b1 && b1 < 0xC0 then
          (utf8Aux rest2).map
            (fun cs => Char.ofNat ((b - 0xC0) * 64 + (b1 - 0x80)) :: cs)
        else none
      | [] => none
    else if b < 0xF0 then
      match rest with
      | b1 :: b2 :: rest2 =>
        let lo1 := if b == 0xE0 then 0xA0 else 0x80
        let hi1 := if b == 0xED then 0xA0 else 0xC0
        if lo1 ≤ b1 && b1 < hi1 && 0x80 ≤ b2 && b2 < 0xC0 then
          (utf8Aux rest2).map
            (fun cs =>
              Char.ofNat ((b - 0xE0) * 4096 + (b1 - 0x80) * 64 + (b2 - 0x80))
                :: cs)
        else none
      | _ => none
    else if b < 0xF5 then
      match rest with
      | b1 :: b2 :: b3 :: rest2 =>
        let lo1 := if b == 0xF0 then 0x90 else 0x80
        let hi1 := if b == 0xF4 then 0x90 else 0xC0
        if lo1 ≤ b1 && b1 < hi1 && 0x80 ≤ b2 && b2 < 0xC0 &&
            0x80 ≤ b3 && b3 < 0xC0 then
          (utf8Aux rest2).map
            (fun cs =>
              Char.ofNat ((b - 0xF0) * 262144 + (b1 - 0x80) * 4096 +
                (b2 - 0x80) * 64 + (b3 - 0x80)) :: cs)
        else none
      | _ => none
    else none

/-- Strict UTF-8 decode on a byte list. -/
def utf8Decode (bs : List Nat) : Option String := (utf8Aux bs).map String.mk

/-- The decoders of the actual runtime: strict UTF-8, and the total
Latin-1 fallback. -/
def realDecoders : Decoders :=
  ⟨utf8Decode, fun bs => some (latin1Decode bs)⟩

/-- ASCII text as a byte list (used to build concrete response bodies). -/
def asciiBytes (s : String) : List Nat := s.data.map Char.toNat

/-- The observable actions of a call: a console `print`, or an HTTP
request being issued. -/
inductive Event where
  | out (s : String)
  | netRequest (url : String)
deriving Repr, DecidableEq

/-- `RFC_EDITOR_URL` (line 27). -/
def RFC_EDITOR_URL : String := "https://www.rfc-editor.org"

/-- `DATA_TRACKER_URL` (line 28). -/
def DATA_TRACKER_URL : String := "https://datatracker.ietf.org"

/-! ### The `(was Discuss)` pattern of `check_ballot`

The program searches the ballot markup for the regular expression
`NAME\s*</div>\s*<div class="flex-fill text-end">\s*<span class="text-muted
small">\(was Discuss\)`.  The name is interpolated without escaping; the
model below treats it as a literal, which coincides with the regex for
names free of regex metacharacters.  Each `\s*` is followed by `<`, which
is not a whitespace character, so greedy whitespace skipping is exactly the
regex semantics. -/

/-- Skip the longest run of whitespace (`\s*` before a non-space literal). -/
def dropWs (cs : List Char) : List Char := cs.dropWhile isPySpace

/-- Match a literal, returning the remainder. -/
def matchLit (lit cs : List Char) : Option (List Char) :=
  if isPrefixL lit cs then some (cs.drop lit.length) else none

/-- Match the fixed markup tail of the discuss pattern. -/
def discussTail (cs : List Char) : Bool :=
  match matchLit "</div>".data (dropWs cs) with
  | none => false
  | some cs1 =>
    match matchLit "<div class=\"flex-fill text-end\">".data (dropWs cs1) with
    | none => false
    | some cs2 =>
      (matchLit "<span class=\"text-muted small\">(was Discuss)".data
        (dropWs cs2)).isSome

/-- Search every position for the name followed by the discuss tail. -/
def discussSearchAux (name : List Char) : List Char → Bool
  | [] =>
    (match matchLit name [] with
     | some rest => discussTail rest
     | none => false)
  | c :: rest =>
    (match matchLit name (c :: rest) with
     | some r => discussTail r
     | none => false) || discussSearchAux name rest

/-- `discuss_regex.search(rfc_text)` of `check_ballot` (lines 271-279). -/
def discussSearch (name text : String) : Bool :=
  discussSearchAux name.data text.data

/-! ### The per-document checks -/

/-- The `try: decode() / except: decode('latin-1')` chain shared by
`check_acknowledgments` and `check_ballot`: the bound text if either
decode succeeds, `none` when both raise (leaving `rfc_text` unbound). -/
def decodeChain (dec : Decoders) (content : List Nat) : Option String :=
  match dec.utf8 content with
  | some t => some t
  | none => dec.latin1 content

/-- `check_acknowledgments` (lines 225-248).  Returns the final global
state, the events of the call, and either the returned `bool` or a raised
exception.  When both decodes fail the document is put in `FAILED_CHECK`,
the decode error is printed, and the following `if rfc_text` then raises
`NameError` because `rfc_text` was never assigned. -/
def check_acknowledgments (g : Globals) (dec : Decoders) (num : Int)
    (title : String) (fetch : Fetch (List Nat)) (st : Stats) :
    Stats × List Event × Except PyErr Bool :=
  let out0 : List Event :=
    (if g.DEBUG then
       [.out (toString num ++ ": Getting acknowledgment data... ")]
     else []) ++
    [.netRequest (RFC_EDITOR_URL ++ "/rfc/rfc" ++ toString num ++ ".txt")]
  match fetch with
  | .connError =>
    (st, out0 ++ [.out "check_acknowledgments failed with ConnectionError"],
     .ok false)
  | .ok content =>
    match decodeChain dec content with
    | none =>
      ({ st with FAILED_CHECK := insertRes st.FAILED_CHECK num title },
       out0 ++ [.out "UnicodeDecodeError"], .error .nameError)
    | some t =>
      if t != "" && pyIn g.NAME t then
        ({ st with CONTRIBUTOR := insertRes st.CONTRIBUTOR num title },
         out0 ++
           (if g.VERBOSE then [.out (toString num ++ ": Contributed")]
            else []),
         .ok true)
      else (st, out0, .ok false)

/-- `check_ballot` (lines 251-286).  Same conventions as
`check_acknowledgments`; on a name match the document is added to
`BALLOTED` and, when the discuss pattern also matches, to `DISCUSS`. -/
def check_ballot (g : Globals) (dec : Decoders) (num : Int)
    (title : String) (fetch : Fetch (List Nat)) (st : Stats) :
    Stats × List Event × Except PyErr Bool :=
  let out0 : List Event :=
    (if g.DEBUG then
       [.out (toString num ++ ": Getting ballot data... ")]
     else []) ++
    [.netRequest (DATA_TRACKER_URL ++ "/doc/rfc" ++ toString num ++
      "/ballot/")]
  match fetch with
  | .connError =>
    (st, out0 ++ [.out "check_ballot failed with ConnectionError"], .ok false)
  | .ok content =>
    match decodeChain dec content with
    | none =>
      ({ st with FAILED_CHECK := insertRes st.FAILED_CHECK num title },
       out0 ++ [.out "UnicodeDecodeError"], .error .nameError)
    | some t =>
      if pyIn g.NAME t then
        let st1 := { st with BALLOTED := insertRes st.BALLOTED num title }
        let dbg : List Event :=
          if g.DEBUG then [.out (toString num ++ ": Checking if discussed... ")]
          else []
        let p : Stats × List Event :=
          if discussSearch g.NAME t then
            ({ st1 with DISCUSS := insertRes st1.DISCUSS num title },
             if g.VERBOSE then [.out (toString num ++ ": Discussed")] else [])
          else (st1, [])
        (p.1,
         out0 ++ dbg ++ p.2 ++
           (if g.VERBOSE then [.out (toString num ++ ": Balloted")] else []),
         .ok true)
      else (st, out0, .ok false)

/-- Python truthiness of an optional string combined with a containment
test: `field and NAME in field` (lines 202-205 and 211-214). -/
def truthyAndContains (name : String) : Option String → Bool
  | none => false
  | some s => s != "" && pyIn name s

/-- The lookup inputs of one document's workflow. -/
structure RfcIn where
  number : Int
  title : String
  mdFetch : Fetch Metadata
  ackFetch : Fetch (List Nat)
  balFetch : Fetch (List Nat)
deriving Repr, DecidableEq

/-- The three metadata classifications of `check_rfc` (lines 197-217):
author membership, shepherd containment, responsible-AD containment,
each with its verbose print (note the source's missing `': '` in the
shepherd line), plus the debug print of the `ad` field. -/
def md_updates (g : Globals) (md : Metadata) (num : Int) (title : String)
    (st : Stats) : Stats × List Event :=
  let p1 : Stats × List Event :=
    if md.authors.contains g.NAME then
      ({ st with AUTHOR := insertRes st.AUTHOR num title },
       if g.VERBOSE then [.out (toString num ++ ": Authored")] else [])
    else (st, [])
  let p2 : Stats × List Event :=
    if truthyAndContains g.NAME md.shepherd then
      ({ p1.1 with SHEPHERD := insertRes p1.1.SHEPHERD num title },
       if g.VERBOSE then [.out (toString num ++ "Shepherded")] else [])
    else (p1.1, [])
  let o3 : List Event :=
    if g.DEBUG then [.out (match md.ad with | none => "None" | some s => s)]
    else []
  let p4 : Stats × List Event :=
    if truthyAndContains g.NAME md.ad then
      ({ p2.1 with RESPONSIBLE_AD := insertRes p2.1.RESPONSIBLE_AD num title },
       if g.VERBOSE then [.out (toString num ++ ": Responsible AD")] else [])
    else (p2.1, [])
  (p4.1, p1.2 ++ p2.2 ++ o3 ++ p4.2)

/-- The conditional acknowledgment check of `check_rfc` (lines 218-219):
performed only when `'ACKNOWLEDGMENTS'` is in `INCLUDE` (when skipped, the
`result` variable set here is dead anyway, since line 220 overwrites it). -/
def ack_stage (g : Globals) (dec : Decoders) (inp : RfcIn) (st : Stats) :
    Stats × List Event × Except PyErr Bool :=
  if g.INCLUDE.contains "ACKNOWLEDGMENTS" then
    check_acknowledgments g dec inp.number inp.title inp.ackFetch st
  else (st, [], .ok false)

/-- `check_rfc` (lines 185-222).  On a metadata connection error the
function returns at once, performing neither the acknowledgment nor the
ballot check.  The acknowledgment check's boolean result is overwritten by
the ballot check's, so `'Name not found'` is printed exactly when
`check_ballot` returned `False`. -/
def check_rfc (g : Globals) (dec : Decoders) (inp : RfcIn) (st : Stats) :
    Stats × List Event × Except PyErr Unit :=
  let out0 : List Event :=
    (if g.DEBUG then
       [.out (toString inp.number ++ ": Getting rfc data... ")]
     else []) ++
    [.netRequest (DATA_TRACKER_URL ++ "/doc/rfc" ++ toString inp.number ++
      "/doc.json")]
  match inp.mdFetch with
  | .connError =>
    (st, out0 ++ [.out "check_rfc failed with ConnectionError"], .ok ())
  | .ok md =>
    let m := md_updates g md inp.number inp.title st
    match ack_stage g dec inp m.1 with
    | (st5, o5, .error e) =>
      (st5, out0 ++ m.2 ++ o5, .error e)
    | (st5, o5, .ok _) =>
      match check_ballot g dec inp.number inp.title inp.balFetch st5 with
      | (st6, o6, .error e) =>
        (st6, out0 ++ m.2 ++ o5 ++ o6, .error e)
      | (st6, o6, .ok result) =>
        (st6,
         out0 ++ m.2 ++ o5 ++ o6 ++
           (if !result then [.out (toString inp.number ++ ": Name not found")]
            else []),
         .ok ())

/-- The fan-out of `main` (line 296): one `check_rfc` per retained
document, all mutating the shared dictionaries.  The cooperative
single-threaded scheduler is modelled by sequencing the workflows; raised
exceptions are collected (under `asyncio.gather` a raising workflow does
not stop its siblings from running). -/
def run_checks (g : Globals) (dec : Decoders) :
    List RfcIn → Stats → Stats × List Event × List PyErr
  | [], st => (st, [], [])
  | i :: is, st =>
    let (st1, o1, r1) := check_rfc g dec i st
    let (st2, o2, errs) := run_checks g dec is st1
    (st2, o1 ++ o2,
     match r1 with
     | .ok _ => errs
     | .error e => e :: errs)

/-! ### Argument handling and the main pipeline -/

/-- Stand-in for the multi-line `USAGE` help text (line 31), abbreviated to
its first sentence; the claims only depend on whether it is printed. -/
def USAGE : String := "Tool for counting RFC contributions by name."

/-- The `for arg, val in arguments` loop of `handle_arguments` (lines
109-124), acting on the option pairs produced by `getopt`.  `-h` prints the
usage text and calls `sys.exit()` (modelled as `Except.error`); the dead
`-i`/`--include` branch is kept as written. -/
def process_args (g : Globals) :
    List (String × String) → List Event × Except Unit Globals
  | [] => ([], .ok g)
  | (arg, val) :: rest =>
    if arg == "-h" || arg == "--help" then ([.out USAGE], .error ())
    else if arg == "-n" || arg == "--name" then
      process_args { g with NAME := val } rest
    else if arg == "-i" || arg == "--include" then
      process_args
        { g with INCLUDE := g.INCLUDE ++ (pySplitOn val ",").map pyUpper }
        rest
    else if arg == "-d" || arg == "--debug" then
      process_args { g with DEBUG := true } rest
    else if arg == "-v" || arg == "--verbose" then
      process_args { g with VERBOSE := true } rest
    else process_args g rest

/-- `handle_arguments` (lines 104-126): print the usage text when no
options were given, process the options, and exit (silently, with no
message) when `NAME` is still empty.  `Except.error ()` models
`sys.exit()`. -/
def handle_arguments (g : Globals) (arguments : List (String × String)) :
    List Event × Except Unit Globals :=
  let out0 : List Event := if arguments.isEmpty then [.out USAGE] else []
  match process_args g arguments with
  | (o, .error u) => (out0 ++ o, .error u)
  | (o, .ok g2) =>
    if g2.NAME == "" then (out0 ++ o, .error ())
    else (out0 ++ o, .ok g2)

/-- The remote world one run talks to: the index document and the three
per-document lookups, plus the runtime's decoders. -/
structure Env where
  indexFetch : Fetch (List RawRow)
  mdFetch : Int → Fetch Metadata
  ackFetch : Int → Fetch (List Nat)
  balFetch : Int → Fetch (List Nat)
  dec : Decoders

/-- Extract the workflow inputs of one retained row dictionary
(`rfc['number']` / `rfc['title']`, always set by `parse_rfc_row`). -/
def toRfcIn (env : Env) (d : PyDict) : RfcIn :=
  { number := match dictGet d "number" with | some (.int n) => n | _ => 0
    title := match dictGet d "title" with | some (.str t) => t | _ => ""
    mdFetch := env.mdFetch
      (match dictGet d "number" with | some (.int n) => n | _ => 0)
    ackFetch := env.ackFetch
      (match dictGet d "number" with | some (.int n) => n | _ => 0)
    balFetch := env.balFetch
      (match dictGet d "number" with | some (.int n) => n | _ => 0) }

/-- `print_result` (lines 129-151), category counts plus the verbose
listings (pretty-printing approximated by one line per dictionary). -/
def print_result (g : Globals) (st : Stats) : List Event :=
  let listing : ResDict → List Event := fun d =>
    if g.VERBOSE then
      [.out (String.intercalate ", "
        (d.map (fun p => toString p.1 ++ ": " ++ p.2)))]
    else []
  [.out "", .out ("Search for name " ++ g.NAME ++ ":"), .out ""] ++
  ([.out ("Authored: " ++ toString st.AUTHOR.length)] ++ listing st.AUTHOR) ++
  ([.out ("Shepherded: " ++ toString st.SHEPHERD.length)] ++
    listing st.SHEPHERD) ++
  ([.out ("Responsible AD: " ++ toString st.RESPONSIBLE_AD.length)] ++
    listing st.RESPONSIBLE_AD) ++
  ([.out ("Balloted: " ++ toString st.BALLOTED.length)] ++
    listing st.BALLOTED) ++
  ([.out ("Discussed: " ++ toString st.DISCUSS.length)] ++
    listing st.DISCUSS) ++
  ([.out ("Acknowledged: " ++ toString st.CONTRIBUTOR.length)] ++
    listing st.CONTRIBUTOR)

/-- The event trace of `main` (lines 289-298): handle the arguments (an
exit there precedes any network request); fetch and filter the index
(`get_possible_rfcs`, lines 159-182), aborting on a connection error or a
row exception; then run every document workflow and print the summary.
The elapsed-time line is wall-clock and not modelled. -/
def main_run (g0 : Globals) (args : List (String × String)) (env : Env) :
    List Event :=
  match handle_arguments g0 args with
  | (o, .error _) => o
  | (o, .ok g) =>
    let ev0 := o ++
      (if g.DEBUG then
         [.out ("Requesting data from " ++ RFC_EDITOR_URL ++
           "/rfc-index2.html... ")]
       else []) ++
      [.netRequest (RFC_EDITOR_URL ++ "/rfc-index2.html")]
    match env.indexFetch with
    | .connError => ev0 ++ [.out "Aborted due to the following error:"]
    | .ok rows =>
      match filter_rows g rows with
      | .error _ => ev0
      | .ok dicts =>
        let ev1 := ev0 ++
          (if g.DEBUG then
             [.out "Started going through RFC:s left after filtering"]
           else [])
        let (stF, outs, _errs) :=
          run_checks g env.dec (dicts.map (toRfcIn env)) emptyStats
        ev1 ++ outs ++ print_result g stF

/-! ### Small observation helpers used by the theorems -/

/-- Did the call return normally (no exception)? -/
def isOkE {ε α : Type} : Except ε α → Bool
  | .ok _ => true
  | .error _ => false

/-- Is the event a console print (as opposed to a network request)? -/
def isOutEvent : Event → Bool
  | .out _ => true
  | .netRequest _ => false

/-- The last character of a string, used to tell the fixed diagnostic
messages apart. -/
def lastChar (s : String) : Option Char := s.data.getLast?

/-- Every key of `a` is a key of `b`. -/
def subKeys (a b : ResDict) : Bool := a.all (fun p => hasKey b p.1)

/-! ### Concrete fixtures for the witnesses and counterexamples -/

/-- The default globals with today's year 2026 (the concrete run date of
the examples; nothing below depends on the choice). -/
def gDefault : Globals := defaultGlobals 2026

/-- The default globals with the target name configured. -/
def gJane : Globals := { gDefault with NAME := "Jane Doe" }

/-- A fully populated index row: number 7100, issued, year 2022, status
`PROPOSED STANDARD`. -/
def exRowFull : RawRow :=
  { name := "tr"
    td := some { noscriptText := some "7100"
                 nextTd := some { bText := some "T"
                                  text := "T\n[ 2022 ]\nStatus: PROPOSED STANDARD" } } }

/-- The field dictionary `parse_rfc_row` produces for `exRowFull`. -/
def exRowFullFields : PyDict :=
  [("number", .int 7100), ("title", .str "T"), ("issued", .bool true),
   ("year", .int 2022), ("status", .str "PROPOSED STANDARD")]

/-- A structurally valid row whose description has a status line but no
year line: `parse_rfc_row` succeeds, but the dictionary has no
`'year'` key. -/
def exRowNoYear : RawRow :=
  { name := "tr"
    td := some { noscriptText := some "8000"
                 nextTd := some { bText := some "Some Title"
                                  text := "Some Title\nStatus: PROPOSED STANDARD" } } }

/-- A structurally valid row whose description has a year line but no
key/value line: the dictionary has no `'status'` key. -/
def exRowNoStatus : RawRow :=
  { name := "tr"
    td := some { noscriptText := some "8001"
                 nextTd := some { bText := some "Ttl"
                                  text := "Ttl\n[ 2022 ]" } } }

/-- The field dictionary `parse_rfc_row` produces for `exRowNoStatus`. -/
def exRowNoStatusFields : PyDict :=
  [("number", .int 8001), ("title", .str "Ttl"), ("issued", .bool true),
   ("year", .int 2022)]

/-- Workflow input whose metadata lookup hits a connection error while the
ballot text does contain the target name. -/
def exConnErr : RfcIn :=
  { number := 7003, title := "T3"
    mdFetch := .connError
    ackFetch := .ok (asciiBytes "nothing")
    balFetch := .ok (asciiBytes "Jane Doe voted") }

/-- Workflow input where the target name is an author but appears in
neither the acknowledgment nor the ballot source. -/
def exAuthorOnly : RfcIn :=
  { number := 7005, title := "T5"
    mdFetch := .ok { authors := ["Jane Doe"], shepherd := none, ad := none }
    ackFetch := .connError
    balFetch := .ok (asciiBytes "no match here") }

/-- Workflow input whose shepherd field strictly contains the target name
without being equal to it. -/
def exShepherdSub : RfcIn :=
  { number := 7006, title := "T6"
    mdFetch := .ok { authors := [], shepherd := some "Jane Doe Smith",
                     ad := none }
    ackFetch := .connError
    balFetch := .ok (asciiBytes "x") }

/-- Ballot markup where the target name is immediately followed by the
`(was Discuss)` marker block. -/
def balTextDiscuss : String :=
  "Jane Doe</div><div class=\"flex-fill text-end\"><span class=\"text-muted small\">(was Discuss)"

/-- Workflow input matching author, ballot and discuss simultaneously. -/
def exTriple : RfcIn :=
  { number := 7008, title := "T8"
    mdFetch := .ok { authors := ["Jane Doe"], shepherd := none, ad := none }
    ackFetch := .connError
    balFetch := .ok (asciiBytes balTextDiscuss) }

/-- A hypothetical decoder pair under which both decode attempts fail, used
to probe the (with `realDecoders` unreachable) double-failure branch. -/
def failDecoders : Decoders := ⟨fun _ => none, fun _ => none⟩

/-- Workflow input whose ballot response triggers the double decode
failure under `failDecoders`. -/
def exDecodeFail : RfcIn :=
  { number := 7004, title := "T4"
    mdFetch := .ok { authors := [], shepherd := none, ad := none }
    ackFetch := .connError
    balFetch := .ok [65] }

/-- An environment whose every lookup fails (never reached in the empty
name scenario). -/
def envNone : Env :=
  { indexFetch := .connError
    mdFetch := fun _ => .connError
    ackFetch := fun _ => .connError
    balFetch := fun _ => .connError
    dec := realDecoders }

/-! ## Helper lemmas -/
theorem hasKey_iff (d : ResDict) (k : Int) :
    hasKey d k = true ↔ ∃ p, p ∈ d ∧ p.1 = k := by
  simp [hasKey, List.any_eq_true]

theorem hasKey_insert_mono (b : ResDict) (n : Int) (t : String) (k : Int)
    (h : hasKey b k = true) : hasKey (insertRes b n t) k = true := by
  rw [hasKey_iff] at h
  rcases h with ⟨q, hq, hqk⟩
  unfold insertRes
  by_cases hb : hasKey b n
  · simp only [hb, if_true]
    rw [hasKey_iff]
    refine ⟨if q.1 == n then (n, t) else q, List.mem_map.mpr ⟨q, hq, rfl⟩, ?_⟩
    by_cases hqn : q.1 == n
    · simp only [hqn, if_true]
      have : q.1 = n := by simpa using hqn
      rw [← this, hqk]
    · simp only [hqn, if_false]
      exact hqk
  · simp only [hb, if_false]
    rw [hasKey_iff]
    exact ⟨q, List.mem_append_left _ hq, hqk⟩

theorem hasKey_insert_self (b : ResDict) (n : Int) (t : String) :
    hasKey (insertRes b n t) n = true := by
  unfold insertRes
  by_cases hb : hasKey b n
  · simp only [hb, if_true]
    rw [hasKey_iff] at hb ⊢
    rcases hb with ⟨q, hq, hqn⟩
    refine ⟨(n, t), List.mem_map.mpr ⟨q, hq, ?_⟩, rfl⟩
    simp [hqn]
  · simp only [hb, if_false]
    rw [hasKey_iff]
    exact ⟨(n, t), List.mem_append_right _ (by simp), rfl⟩

theorem mem_insertRes (a : ResDict) (n : Int) (t : String) (p : Int × String)
    (h : p ∈ insertRes a n t) : p.1 = n ∨ hasKey a p.1 = true := by
  unfold insertRes at h
  by_cases hb : hasKey a n
  · simp only [hb, if_true] at h
    rcases List.mem_map.mp h with ⟨q, hq, rfl⟩
    by_cases hqn : q.1 == n
    · simp [hqn]
    · simp only [hqn, if_false]
      right
      rw [hasKey_iff]
      exact ⟨q, hq, rfl⟩
  · simp only [hb, if_false] at h
    rcases List.mem_append.mp h with h | h
    · right; rw [hasKey_iff]; exact ⟨p, h, rfl⟩
    · left; simp at h; rw [h]

theorem subKeys_iff (a b : ResDict) :
    subKeys a b = true ↔ ∀ p ∈ a, hasKey b p.1 = true := by
  simp [subKeys, List.all_eq_true]

theorem subKeys_insert_right (a b : ResDict) (n : Int) (t : String)
    (h : subKeys a b = true) : subKeys a (insertRes b n t) = true := by
  rw [subKeys_iff] at h ⊢
  intro p hp
  exact hasKey_insert_mono _ _ _ _ (h p hp)

theorem subKeys_insert_both (a b : ResDict) (n : Int) (t : String)
    (h : subKeys a b = true) : subKeys (insertRes a n t) (insertRes b n t) = true := by
  rw [subKeys_iff] at h ⊢
  intro p hp
  rcases mem_insertRes a n t p hp with hpn | hpa
  · rw [hpn]; exact hasKey_insert_self b n t
  · rw [hasKey_iff] at hpa
    rcases hpa with ⟨q, hq, hqk⟩
    rw [← hqk]
    exact hasKey_insert_mono _ _ _ _ (h q hq)

theorem check_ack_fields (g : Globals) (dec : Decoders) (num : Int)
    (title : String) (f : Fetch (List Nat)) (st : Stats) :
    (check_acknowledgments g dec num title f st).1.AUTHOR = st.AUTHOR ∧
    (check_acknowledgments g dec num title f st).1.SHEPHERD = st.SHEPHERD ∧
    (check_acknowledgments g dec num title f st).1.RESPONSIBLE_AD =
      st.RESPONSIBLE_AD ∧
    (check_acknowledgments g dec num title f st).1.BALLOTED = st.BALLOTED ∧
    (check_acknowledgments g dec num title f st).1.DISCUSS = st.DISCUSS := by
  unfold check_acknowledgments
  cases f with
  | connError => simp
  | ok content =>
    cases hdc : decodeChain dec content with
    | none => simp [hdc]
    | some t =>
      by_cases ht : (t != "" && pyIn g.NAME t) = true <;> simp [hdc, ht]

theorem check_ballot_fields (g : Globals) (dec : Decoders) (num : Int)
    (title : String) (f : Fetch (List Nat)) (st : Stats) :
    (check_ballot g dec num title f st).1.AUTHOR = st.AUTHOR ∧
    (check_ballot g dec num title f st).1.SHEPHERD = st.SHEPHERD ∧
    (check_ballot g dec num title f st).1.RESPONSIBLE_AD =
      st.RESPONSIBLE_AD ∧
    (check_ballot g dec num title f st).1.CONTRIBUTOR = st.CONTRIBUTOR := by
  unfold check_ballot
  cases f with
  | connError => simp
  | ok content =>
    cases hdc : decodeChain dec content with
    | none => simp [hdc]
    | some t =>
      by_cases ht : pyIn g.NAME t = true <;>
        by_cases hd : discussSearch g.NAME t = true <;>
        simp [hdc, ht, hd]

theorem md_updates_fields (g : Globals) (md : Metadata) (num : Int)
    (title : String) (st : Stats) :
    (md_updates g md num title st).1.CONTRIBUTOR = st.CONTRIBUTOR ∧
    (md_updates g md num title st).1.BALLOTED = st.BALLOTED ∧
    (md_updates g md num title st).1.DISCUSS = st.DISCUSS ∧
    (md_updates g md num title st).1.FAILED_CHECK = st.FAILED_CHECK := by
  unfold md_updates
  split_ifs <;> simp

theorem check_ballot_subKeys (g : Globals) (dec : Decoders) (num : Int)
    (title : String) (f : Fetch (List Nat)) (st : Stats)
    (h : subKeys st.DISCUSS st.BALLOTED = true) :
    subKeys (check_ballot g dec num title f st).1.DISCUSS
      (check_ballot g dec num title f st).1.BALLOTED = true := by
  unfold check_ballot
  cases f with
  | connError => simpa using h
  | ok content =>
    cases hdc : decodeChain dec content with
    | none => simpa [hdc] using h
    | some t =>
      by_cases ht : pyIn g.NAME t = true
      · by_cases hd : discussSearch g.NAME t = true
        · simp only [hdc, ht, hd, if_true]
          exact subKeys_insert_both _ _ _ _ h
        · simp only [hdc, ht, hd, if_true, if_false]
          exact subKeys_insert_right _ _ _ _ h
      · simpa [hdc, ht] using h

theorem md_updates_subKeys (g : Globals) (md : Metadata) (num : Int)
    (title : String) (st : Stats)
    (h : subKeys st.DISCUSS st.BALLOTED = true) :
    subKeys (md_updates g md num title st).1.DISCUSS
      (md_updates g md num title st).1.BALLOTED = true := by
  have hf := md_updates_fields g md num title st
  rw [hf.2.1, hf.2.2.1]
  exact h

theorem ack_stage_subKeys (g : Globals) (dec : Decoders) (inp : RfcIn)
    (st : Stats) (h : subKeys st.DISCUSS st.BALLOTED = true) :
    subKeys (ack_stage g dec inp st).1.DISCUSS
      (ack_stage g dec inp st).1.BALLOTED = true := by
  unfold ack_stage
  by_cases hinc : g.INCLUDE.contains "ACKNOWLEDGMENTS" = true
  · have hf := check_ack_fields g dec inp.number inp.title inp.ackFetch st
    simp only [hinc, if_true]
    rw [hf.2.2.2.1, hf.2.2.2.2]
    exact h
  · simp only [hinc, if_false]
    exact h

theorem check_rfc_subKeys (g : Globals) (dec : Decoders) (inp : RfcIn)
    (st : Stats) (h : subKeys st.DISCUSS st.BALLOTED = true) :
    subKeys (check_rfc g dec inp st).1.DISCUSS
      (check_rfc g dec inp st).1.BALLOTED = true := by
  unfold check_rfc
  cases hmd : inp.mdFetch with
  | connError => simpa using h
  | ok md =>
    have h1 := md_updates_subKeys g md inp.number inp.title st h
    have h2 := ack_stage_subKeys g dec inp
      (md_updates g md inp.number inp.title st).1 h1
    rcases hack : ack_stage g dec inp (md_updates g md inp.number inp.title st).1
      with ⟨st5, o5, r5⟩
    rw [hack] at h2
    simp only [hack]
    cases r5 with
    | error e => simpa using h2
    | ok b =>
      have h3 := check_ballot_subKeys g dec inp.number inp.title inp.balFetch st5 h2
      rcases hbal : check_ballot g dec inp.number inp.title inp.balFetch st5
        with ⟨st6, o6, r6⟩
      rw [hbal] at h3
      simp only [hbal]
      cases r6 <;> simpa using h3

theorem run_checks_subKeys (g : Globals) (dec : Decoders)
    (inputs : List RfcIn) (st : Stats)
    (h : subKeys st.DISCUSS st.BALLOTED = true) :
    subKeys (run_checks g dec inputs st).1.DISCUSS
      (run_checks g dec inputs st).1.BALLOTED = true := by
  induction inputs generalizing st with
  | nil => simpa [run_checks] using h
  | cons i is ih =>
    have h1 := check_rfc_subKeys g dec i st h
    rcases hc : check_rfc g dec i st with ⟨st1, o1, r1⟩
    rw [hc] at h1
    have h2 := ih st1 h1
    simp only [run_checks, hc]
    rcases hr : run_checks g dec is st1 with ⟨st2, o2, errs⟩
    rw [hr] at h2
    simpa using h2

theorem decodeChain_total (u : List Nat → Option String) (c : List Nat) :
    (decodeChain ⟨u, fun bs => some (latin1Decode bs)⟩ c).isSome = true := by
  unfold decodeChain
  cases h : u c <;> simp [h]

theorem check_ack_real (g : Globals) (u : List Nat → Option String)
    (num : Int) (title : String) (f : Fetch (List Nat)) (st : Stats) :
    isOkE (check_acknowledgments g ⟨u, fun bs => some (latin1Decode bs)⟩
      num title f st).2.2 = true ∧
    (check_acknowledgments g ⟨u, fun bs => some (latin1Decode bs)⟩
      num title f st).1.FAILED_CHECK = st.FAILED_CHECK := by
  unfold check_acknowledgments
  cases f with
  | connError => simp [isOkE]
  | ok content =>
    cases hdc : decodeChain ⟨u, fun bs => some (latin1Decode bs)⟩ content with
    | none =>
      have := decodeChain_total u content
      rw [hdc] at this
      simp at this
    | some t =>
      by_cases ht : (t != "" && pyIn g.NAME t) = true <;> simp [hdc, ht, isOkE]

theorem check_ballot_real (g : Globals) (u : List Nat → Option String)
    (num : Int) (title : String) (f : Fetch (List Nat)) (st : Stats) :
    isOkE (check_ballot g ⟨u, fun bs => some (latin1Decode bs)⟩
      num title f st).2.2 = true ∧
    (check_ballot g ⟨u, fun bs => some (latin1Decode bs)⟩
      num title f st).1.FAILED_CHECK = st.FAILED_CHECK := by
  unfold check_ballot
  cases f with
  | connError => simp [isOkE]
  | ok content =>
    cases hdc : decodeChain ⟨u, fun bs => some (latin1Decode bs)⟩ content with
    | none =>
      have := decodeChain_total u content
      rw [hdc] at this
      simp at this
    | some t =>
      by_cases ht : pyIn g.NAME t = true <;>
        by_cases hd : discussSearch g.NAME t = true <;>
        simp [hdc, ht, hd, isOkE]

theorem ack_stage_real (g : Globals) (u : List Nat → Option String)
    (inp : RfcIn) (st : Stats) :
    isOkE (ack_stage g ⟨u, fun bs => some (latin1Decode bs)⟩ inp st).2.2 = true ∧
    (ack_stage g ⟨u, fun bs => some (latin1Decode bs)⟩ inp st).1.FAILED_CHECK =
      st.FAILED_CHECK := by
  unfold ack_stage
  by_cases hinc : g.INCLUDE.contains "ACKNOWLEDGMENTS" = true
  · simp only [hinc, if_true]
    exact check_ack_real g u inp.number inp.title inp.ackFetch st
  · simp only [hinc, if_false]
    exact ⟨rfl, rfl⟩

theorem check_rfc_real (g : Globals) (u : List Nat → Option String)
    (inp : RfcIn) (st : Stats) :
    isOkE (check_rfc g ⟨u, fun bs => some (latin1Decode bs)⟩ inp st).2.2 = true ∧
    (check_rfc g ⟨u, fun bs => some (latin1Decode bs)⟩ inp st).1.FAILED_CHECK =
      st.FAILED_CHECK := by
  unfold check_rfc
  cases hmd : inp.mdFetch with
  | connError => simp [isOkE]
  | ok md =>
    have hmu := md_updates_fields g md inp.number inp.title st
    have ha := ack_stage_real g u inp (md_updates g md inp.number inp.title st).1
    rcases hack : ack_stage g ⟨u, fun bs => some (latin1Decode bs)⟩ inp
      (md_updates g md inp.number inp.title st).1 with ⟨st5, o5, r5⟩
    rw [hack] at ha
    simp only [hack]
    cases r5 with
    | error e => simp [isOkE] at ha
    | ok b =>
      have hb := check_ballot_real g u inp.number inp.title inp.balFetch st5
      rcases hbal : check_ballot g ⟨u, fun bs => some (latin1Decode bs)⟩
        inp.number inp.title inp.balFetch st5 with ⟨st6, o6, r6⟩
      rw [hbal] at hb
      simp only [hbal]
      cases r6 with
      | error e => simp [isOkE] at hb
      | ok result =>
        refine ⟨rfl, ?_⟩
        simp only
        rw [hb.2, ha.2, hmu.2.2.2]

theorem run_checks_real (g : Globals) (u : List Nat → Option String)
    (inputs : List RfcIn) (st : Stats) :
    (run_checks g ⟨u, fun bs => some (latin1Decode bs)⟩ inputs st).1.FAILED_CHECK =
      st.FAILED_CHECK ∧
    (run_checks g ⟨u, fun bs => some (latin1Decode bs)⟩ inputs st).2.2 = [] := by
  induction inputs generalizing st with
  | nil => exact ⟨rfl, rfl⟩
  | cons i is ih =>
    have h1 := check_rfc_real g u i st
    rcases hc : check_rfc g ⟨u, fun bs => some (latin1Decode bs)⟩ i st
      with ⟨st1, o1, r1⟩
    rw [hc] at h1
    have h2 := ih st1
    simp only [run_checks, hc]
    rcases hr : run_checks g ⟨u, fun bs => some (latin1Decode bs)⟩ is st1
      with ⟨st2, o2, errs⟩
    rw [hr] at h2
    cases r1 with
    | error e => simp [isOkE] at h1
    | ok v =>
      refine ⟨?_, ?_⟩
      · simp only
        rw [h2.1, h1.2]
      · simpa using h2.2

theorem pyInList_str (s : String) (l : List String) :
    pyInList (.str s) (l.map PyVal.str) = true ↔ s ∈ l := by
  induction l with
  | nil => simp [pyInList]
  | cons t ts ih =>
    constructor
    · intro h
      have h2 : pyEq (.str s) (.str t) = true ∨
          pyInList (.str s) (ts.map PyVal.str) = true := by
        simpa [pyInList, Bool.or_eq_true] using h
      rcases h2 with h2 | h2
      · have hst : s = t := by simpa [pyEq, pyNumOf] using h2
        simp [hst]
      · simp [ih.mp h2]
    · intro h
      rcases List.mem_cons.mp h with rfl | h
      · have he : pyEq (PyVal.str s) (PyVal.str s) = true := by
          simp [pyEq, pyNumOf]
        simp [pyInList, he]
      · have hi := ih.mpr h
        simp only [pyInList, List.map_cons, List.any_cons, Bool.or_eq_true]
        right
        simpa [pyInList] using hi

theorem parse_ok_struct (row : RawRow) (d : PyDict)
    (h : parse_rfc_row row = .ok d) :
    ∃ cell nsv, row.td = some cell ∧ cell.noscriptText = some nsv := by
  cases hc : row.td with
  | none => unfold parse_rfc_row at h; rw [hc] at h; simp at h
  | some cell =>
    cases hn : cell.noscriptText with
    | none =>
      unfold parse_rfc_row at h
      rw [hc] at h
      simp [hn] at h
    | some nsv => exact ⟨cell, nsv, rfl, hn⟩

/-- C1: for a structurally valid row whose parsed dictionary carries a
string status, a boolean issued flag and integer year and number, the row
is kept by the index filter exactly when the status is in the allowed set,
the issued flag is true, and year and number lie in their inclusive
ranges. -/
theorem c1_filtered_membership (g : Globals) (row : RawRow) (cell : TdCell)
    (nsv : String) (d : PyDict) (s : String) (b : Bool) (y n : Int)
    (hname : row.name = "tr") (htd : row.td = some cell)
    (hns : cell.noscriptText = some nsv)
    (hparse : parse_rfc_row row = .ok d)
    (hst : dictGet d "status" = some (.str s))
    (hisd : dictGet d "issued" = some (.bool b))
    (hy : dictGet d "year" = some (.int y))
    (hn : dictGet d "number" = some (.int n)) :
    validate_row g row = .ok true ↔
      (s ∈ g.INCLUDE ∧ b = true ∧
       g.FIRST_YEAR ≤ y ∧ y ≤ g.LAST_YEAR ∧
       g.FIRST_RFC ≤ n ∧ n ≤ g.LAST_RFC) := by
  unfold validate_row dictGetE
  rw [hname, htd, hparse]
  simp only [hns, hst, hisd, hy, hn, bne_self_eq_false, Option.isNone_some,
    Bool.false_eq_true, if_false, pyGe, pyNumOf, pyTruthy]
  by_cases hs : s ∈ g.INCLUDE
  · have h1 : pyInList (.str s) (g.INCLUDE.map PyVal.str) = true :=
      (pyInList_str s g.INCLUDE).mpr hs
    simp only [h1, Bool.not_true, Bool.false_eq_true, if_false]
    split_ifs <;> simp_all
  · have h1 : pyInList (.str s) (g.INCLUDE.map PyVal.str) = false := by
      cases hq : pyInList (.str s) (g.INCLUDE.map PyVal.str) with
      | true => exact absurd ((pyInList_str s g.INCLUDE).mp hq) hs
      | false => rfl
    simp [h1, hs]

set_option maxRecDepth 4000 in
/-- Witness for C1 at the concrete row `exRowFull`. -/
theorem c1_filtered_membership_witness :
    validate_row gDefault exRowFull = .ok true :=
  (c1_filtered_membership gDefault exRowFull
    { noscriptText := some "7100"
      nextTd := some { bText := some "T"
                       text := "T\n[ 2022 ]\nStatus: PROPOSED STANDARD" } }
    "7100" exRowFullFields "PROPOSED STANDARD" true 2022 7100
    rfl rfl rfl rfl rfl rfl rfl rfl).mpr (by decide)

set_option maxRecDepth 4000 in
/-- C2 counterexample: `exRowNoYear` parses structurally (it is a `tr` row
with the `noscript` marker and a status line) but lacks a year line, and
the filtering step raises `KeyError` instead of dropping it, aborting the
whole scan of `filter_rows`. -/
theorem c2_counterexample :
    parse_rfc_row exRowNoYear = .ok
      [("number", .int 8000), ("title", .str "Some Title"),
       ("issued", .bool true), ("status", .str "PROPOSED STANDARD")] ∧
    dictGet [("number", PyVal.int 8000), ("title", PyVal.str "Some Title"),
       ("issued", PyVal.bool true), ("status", PyVal.str "PROPOSED STANDARD")]
      "year" = none ∧
    validate_row gDefault exRowNoYear = .error PyErr.keyError ∧
    filter_rows gDefault [exRowNoYear] = .error PyErr.keyError :=
  ⟨rfl, rfl, rfl, rfl⟩

/-- C2 (amended): a row that is not a `tr` element or lacks the `noscript`
marker is dropped without error, but a row that passes the structural check
and parses to a dictionary without a `status` key makes `validate_row`
raise `KeyError` (aborting the scan) rather than dropping the row. -/
theorem c2_amended (g : Globals) (row : RawRow) :
    (row.name ≠ "tr" → validate_row g row = .ok false) ∧
    (∀ cell, row.td = some cell → cell.noscriptText = none →
      validate_row g row = .ok false) ∧
    (∀ d, parse_rfc_row row = .ok d → dictGet d "status" = none →
      row.name = "tr" → validate_row g row = .error PyErr.keyError) := by
  refine ⟨?_, ?_, ?_⟩
  · intro h
    unfold validate_row
    have hb : (row.name != "tr") = true := by simpa using h
    simp [hb]
  · intro cell htd hns
    unfold validate_row
    by_cases hn : row.name = "tr"
    · simp [hn, htd, hns]
    · have hb : (row.name != "tr") = true := by simpa using hn
      simp [hb]
  · intro d hparse hstat hname
    rcases parse_ok_struct row d hparse with ⟨cell, nsv, htd, hns⟩
    unfold validate_row dictGetE
    rw [hname, htd, hparse]
    simp [hns, hstat]

set_option maxRecDepth 4000 in
/-- Witness for C2 (amended) at `exRowNoStatus`, a structurally valid row
without a status line. -/
theorem c2_amended_witness :
    validate_row gDefault exRowNoStatus = .error PyErr.keyError :=
  (c2_amended gDefault exRowNoStatus).2.2 exRowNoStatusFields rfl rfl rfl

set_option maxRecDepth 4000 in
/-- C3 counterexample: for `exConnErr` the metadata lookup hits a
connection error; although the ballot body (which decodes fine) contains
the target name, neither the ballot nor the acknowledgment check runs and
nothing is recorded. -/
theorem c3_counterexample :
    (check_rfc gJane realDecoders exConnErr emptyStats).1 = emptyStats ∧
    utf8Decode (asciiBytes "Jane Doe voted") = some "Jane Doe voted" ∧
    pyIn gJane.NAME "Jane Doe voted" = true :=
  ⟨rfl, rfl, rfl⟩

/-- C3 (amended): a connection error on the metadata lookup makes
`check_rfc` return immediately: the result state is unchanged (so a match
available in the acknowledgment or ballot sources is not recorded), no
exception is raised, and the only events are the metadata request and the
failure message. -/
theorem c3_amended (g : Globals) (dec : Decoders) (inp : RfcIn) (st : Stats)
    (h : inp.mdFetch = .connError) :
    (check_rfc g dec inp st).1 = st ∧
    (check_rfc g dec inp st).2.2 = .ok () ∧
    (check_rfc g dec inp st).2.1 =
      (if g.DEBUG then
        [.out (toString inp.number ++ ": Getting rfc data... ")] else []) ++
      [.netRequest (DATA_TRACKER_URL ++ "/doc/rfc" ++ toString inp.number ++
        "/doc.json"),
       .out "check_rfc failed with ConnectionError"] := by
  unfold check_rfc
  rw [h]
  exact ⟨rfl, rfl, by simp⟩

set_option maxRecDepth 4000 in
/-- Witness for C3 (amended) at the concrete input `exConnErr`. -/
theorem c3_amended_witness :
    (check_rfc gJane realDecoders exConnErr emptyStats).1 = emptyStats :=
  (c3_amended gJane realDecoders exConnErr emptyStats rfl).1

set_option maxRecDepth 4000 in
/-- C4 counterexample: under a decoder pair for which both decode attempts
fail, the ballot check records the document in the failed category but then
raises `NameError` (the text variable was never bound), and that exception
escapes the whole document workflow of `check_rfc` instead of letting the
remaining processing continue. -/
theorem c4_counterexample :
    (check_ballot gJane failDecoders 7004 "T4" (.ok [65])
      emptyStats).1.FAILED_CHECK = [(7004, "T4")] ∧
    (check_ballot gJane failDecoders 7004 "T4" (.ok [65])
      emptyStats).2.2 = .error PyErr.nameError ∧
    (check_rfc gJane failDecoders exDecodeFail emptyStats).2.2 =
      .error PyErr.nameError :=
  ⟨rfl, rfl, rfl⟩

/-- C4 (amended): with the program's actual total Latin-1 fallback the
double-decode-failure branch is unreachable (both checks return normally
and never touch the failed category); in the hypothetical case of a
decoder pair under which both attempts fail, the document is recorded in
the failed category and no text classification happens, but the check then
raises `NameError` instead of returning. -/
theorem c4_amended (g : Globals) (num : Int) (title : String)
    (content : List Nat) (st : Stats) (u : List Nat → Option String)
    (dec : Decoders) (h1 : dec.utf8 content = none)
    (h2 : dec.latin1 content = none) :
    isOkE (check_acknowledgments g ⟨u, fun bs => some (latin1Decode bs)⟩
      num title (.ok content) st).2.2 = true ∧
    (check_acknowledgments g ⟨u, fun bs => some (latin1Decode bs)⟩
      num title (.ok content) st).1.FAILED_CHECK = st.FAILED_CHECK ∧
    isOkE (check_ballot g ⟨u, fun bs => some (latin1Decode bs)⟩
      num title (.ok content) st).2.2 = true ∧
    (check_ballot g ⟨u, fun bs => some (latin1Decode bs)⟩
      num title (.ok content) st).1.FAILED_CHECK = st.FAILED_CHECK ∧
    (check_acknowledgments g dec num title (.ok content) st).1.FAILED_CHECK =
      insertRes st.FAILED_CHECK num title ∧
    (check_acknowledgments g dec num title (.ok content) st).2.2 =
      .error PyErr.nameError ∧
    (check_acknowledgments g dec num title (.ok content) st).1.CONTRIBUTOR =
      st.CONTRIBUTOR ∧
    (check_ballot g dec num title (.ok content) st).1.FAILED_CHECK =
      insertRes st.FAILED_CHECK num title ∧
    (check_ballot g dec num title (.ok content) st).2.2 =
      .error PyErr.nameError ∧
    (check_ballot g dec num title (.ok content) st).1.BALLOTED =
      st.BALLOTED := by
  have hchain : decodeChain dec content = none := by
    unfold decodeChain
    rw [h1, h2]
  refine ⟨(check_ack_real g u num title (.ok content) st).1,
          (check_ack_real g u num title (.ok content) st).2,
          (check_ballot_real g u num title (.ok content) st).1,
          (check_ballot_real g u num title (.ok content) st).2,
          ?_, ?_, ?_, ?_, ?_, ?_⟩
  all_goals
    first
    | (unfold check_acknowledgments; simp [hchain])
    | (unfold check_ballot; simp [hchain])

set_option maxRecDepth 4000 in
/-- Witness for C4 (amended) under the concrete failing decoder pair. -/
theorem c4_amended_witness :
    (check_ballot gJane failDecoders 7004 "T4" (.ok [65])
      emptyStats).2.2 = .error PyErr.nameError :=
  (c4_amended gJane 7004 "T4" [65] emptyStats utf8Decode failDecoders
    rfl rfl).2.2.2.2.2.2.2.2.1

theorem md_updates_shep_ad (g : Globals) (md : Metadata) (num : Int)
    (title : String) (st : Stats) :
    (md_updates g md num title st).1.SHEPHERD =
      (if truthyAndContains g.NAME md.shepherd then
        insertRes st.SHEPHERD num title else st.SHEPHERD) ∧
    (md_updates g md num title st).1.RESPONSIBLE_AD =
      (if truthyAndContains g.NAME md.ad then
        insertRes st.RESPONSIBLE_AD num title else st.RESPONSIBLE_AD) := by
  unfold md_updates
  split_ifs <;> simp_all

theorem ack_stage_fields (g : Globals) (dec : Decoders) (inp : RfcIn)
    (st : Stats) :
    (ack_stage g dec inp st).1.AUTHOR = st.AUTHOR ∧
    (ack_stage g dec inp st).1.SHEPHERD = st.SHEPHERD ∧
    (ack_stage g dec inp st).1.RESPONSIBLE_AD = st.RESPONSIBLE_AD ∧
    (ack_stage g dec inp st).1.BALLOTED = st.BALLOTED ∧
    (ack_stage g dec inp st).1.DISCUSS = st.DISCUSS := by
  unfold ack_stage
  by_cases hinc : g.INCLUDE.contains "ACKNOWLEDGMENTS" = true
  · simp only [hinc, if_true]
    exact check_ack_fields g dec inp.number inp.title inp.ackFetch st
  · simp only [hinc, if_false]
    exact ⟨rfl, rfl, rfl, rfl, rfl⟩

/-- C6 (amended): with a successful metadata lookup the document is added
to the shepherded category exactly when the `shepherd` field is truthy and
contains the target name as a substring (not: equals it), and to the
responsible-AD category exactly when the `ad` field is truthy and contains
the target name as a substring. -/
theorem c6_amended (g : Globals) (dec : Decoders) (inp : RfcIn) (st : Stats)
    (md : Metadata) (hmd : inp.mdFetch = .ok md) :
    (check_rfc g dec inp st).1.SHEPHERD =
      (if truthyAndContains g.NAME md.shepherd then
        insertRes st.SHEPHERD inp.number inp.title else st.SHEPHERD) ∧
    (check_rfc g dec inp st).1.RESPONSIBLE_AD =
      (if truthyAndContains g.NAME md.ad then
        insertRes st.RESPONSIBLE_AD inp.number inp.title
       else st.RESPONSIBLE_AD) := by
  unfold check_rfc
  rw [hmd]
  have hmu := md_updates_shep_ad g md inp.number inp.title st
  have ha := ack_stage_fields g dec inp (md_updates g md inp.number inp.title st).1
  rcases hack : ack_stage g dec inp (md_updates g md inp.number inp.title st).1
    with ⟨st5, o5, r5⟩
  rw [hack] at ha
  simp only [hack]
  cases r5 with
  | error e =>
    exact ⟨ha.2.1.trans hmu.1, ha.2.2.1.trans hmu.2⟩
  | ok b =>
    have hb := check_ballot_fields g dec inp.number inp.title inp.balFetch st5
    rcases hbal : check_ballot g dec inp.number inp.title inp.balFetch st5
      with ⟨st6, o6, r6⟩
    rw [hbal] at hb
    simp only [hbal]
    cases r6 with
    | error e =>
      exact ⟨hb.2.1.trans (ha.2.1.trans hmu.1),
             hb.2.2.1.trans (ha.2.2.1.trans hmu.2)⟩
    | ok result =>
      exact ⟨hb.2.1.trans (ha.2.1.trans hmu.1),
             hb.2.2.1.trans (ha.2.2.1.trans hmu.2)⟩

set_option maxRecDepth 4000 in
/-- C6 counterexample: the document is added to the shepherded category
although its shepherd field (`"Jane Doe Smith"`) is not equal to the
target name — substring containment, not equality, is what the program
tests. -/
theorem c6_counterexample :
    (check_rfc gJane realDecoders exShepherdSub emptyStats).1.SHEPHERD =
      [(7006, "T6")] ∧
    exShepherdSub.mdFetch =
      .ok { authors := [], shepherd := some "Jane Doe Smith", ad := none } ∧
    some "Jane Doe Smith" ≠ some gJane.NAME :=
  ⟨rfl, rfl, by decide⟩

set_option maxRecDepth 4000 in
/-- Witness for C6 (amended) at the concrete input `exShepherdSub`. -/
theorem c6_amended_witness :
    (check_rfc gJane realDecoders exShepherdSub emptyStats).1.SHEPHERD =
      (if truthyAndContains gJane.NAME (some "Jane Doe Smith") then
        insertRes emptyStats.SHEPHERD 7006 "T6" else emptyStats.SHEPHERD) :=
  (c6_amended gJane realDecoders exShepherdSub emptyStats
    { authors := [], shepherd := some "Jane Doe Smith", ad := none } rfl).1

/-- C7: through any sequence of document workflows, the objected
(`DISCUSS`) mapping stays a key-subset of the balloted mapping: if every
discussed document is balloted before a run of checks, the same holds
after it (and so at every point of a run started from the empty state). -/
theorem c7_objected_subset_balloted (g : Globals) (dec : Decoders)
    (inputs : List RfcIn) (st : Stats)
    (h : subKeys st.DISCUSS st.BALLOTED = true) :
    subKeys (run_checks g dec inputs st).1.DISCUSS
      (run_checks g dec inputs st).1.BALLOTED = true :=
  run_checks_subKeys g dec inputs st h

set_option maxRecDepth 8000 in
/-- Witness for C7 on a concrete run that puts `7008` into both
categories. -/
theorem c7_objected_subset_balloted_witness :
    subKeys (run_checks gJane realDecoders [exTriple] emptyStats).1.DISCUSS
      (run_checks gJane realDecoders [exTriple] emptyStats).1.BALLOTED =
      true :=
  c7_objected_subset_balloted gJane realDecoders [exTriple] emptyStats
    (by decide)

set_option maxRecDepth 8000 in
/-- C8: a single document (`exTriple`, number 7008) whose metadata lists
the target name as an author and whose ballot markup contains the name
followed by the `(was Discuss)` marker ends up simultaneously in the
authored, balloted and objected categories. -/
theorem c8_multiple_categories :
    hasKey (check_rfc gJane realDecoders exTriple emptyStats).1.AUTHOR
      7008 = true ∧
    hasKey (check_rfc gJane realDecoders exTriple emptyStats).1.BALLOTED
      7008 = true ∧
    hasKey (check_rfc gJane realDecoders exTriple emptyStats).1.DISCUSS
      7008 = true ∧
    discussSearch gJane.NAME balTextDiscuss = true := by
  refine ⟨by decide, by decide, by decide, by decide⟩

theorem process_args_out_only (g : Globals) (args : List (String × String)) :
    ((process_args g args).1).all isOutEvent = true := by
  induction args generalizing g with
  | nil => rfl
  | cons a rest ih =>
    unfold process_args
    rcases a with ⟨arg, val⟩
    split_ifs <;> first | exact ih _ | simp [isOutEvent]

set_option maxRecDepth 4000 in
/-- C9 counterexample: invoked with an explicitly empty `-n` value, the run
exits before any network request, but silently: no message at all is
printed (`sys.exit()` with no argument), contradicting the claimed
user-visible message. -/
theorem c9_counterexample :
    handle_arguments gDefault [("-n", "")] = ([], .error ()) ∧
    main_run gDefault [("-n", "")] envNone = [] :=
  ⟨rfl, rfl⟩

/-- C9 (amended): whenever argument processing leaves the target name
empty, the run exits during argument handling and the main pipeline
performs no network request (its trace holds only console prints, and is
empty unless the argument list was empty or `-h` was given — the claimed
user-visible message is not generally printed). -/
theorem c9_amended (g0 : Globals) (args : List (String × String)) (env : Env)
    (o : List Event) (g1 : Globals)
    (hp : process_args g0 args = (o, .ok g1)) (hname : g1.NAME = "") :
    (handle_arguments g0 args).2 = .error () ∧
    (main_run g0 args env).all isOutEvent = true := by
  have hh : handle_arguments g0 args =
      ((if args.isEmpty then [Event.out USAGE] else []) ++ o, .error ()) := by
    unfold handle_arguments
    rw [hp]
    simp [hname]
  refine ⟨by rw [hh], ?_⟩
  unfold main_run
  rw [hh]
  show ((if args.isEmpty then [Event.out USAGE] else []) ++ o).all
    isOutEvent = true
  rw [List.all_append, Bool.and_eq_true]
  have h1 := process_args_out_only g0 args
  rw [hp] at h1
  refine ⟨?_, by simpa using h1⟩
  by_cases he : args.isEmpty <;> simp [he, isOutEvent]

/-- Witness for C9 (amended): a `-d`-only invocation leaves the name empty
and produces a fetch-free (indeed empty) trace. -/
theorem c9_amended_witness :
    (handle_arguments gDefault [("-d", "x")]).2 = .error () ∧
    (main_run gDefault [("-d", "x")] envNone).all isOutEvent = true :=
  c9_amended gDefault [("-d", "x")] envNone []
    { gDefault with DEBUG := true } rfl rfl

theorem string_append_ne (s a b : String) (h : a ≠ b) : s ++ a ≠ s ++ b := by
  intro he
  apply h
  have hd := congrArg String.data he
  rw [String.data_append, String.data_append] at hd
  have h2 := List.append_cancel_left hd
  cases a
  cases b
  exact congrArg String.mk h2

theorem lastChar_append (s t : String) (c : Char) (h : lastChar t = some c) :
    lastChar (s ++ t) = some c := by
  unfold lastChar at *
  rw [String.data_append, List.getLast?_append, h]
  rfl

theorem ne_of_lastChar {a b : String} (h : lastChar a ≠ lastChar b) :
    a ≠ b :=
  fun he => h (congrArg lastChar he)

theorem notfound_notin_md (g : Globals) (md : Metadata) (num : Int)
    (title : String) (st : Stats) (hdbg : g.DEBUG = false) :
    Event.out (toString num ++ ": Name not found") ∉
      (md_updates g md num title st).2 := by
  have h1 : toString num ++ ": Name not found" ≠
      toString num ++ ": Authored" := string_append_ne _ _ _ (by decide)
  have h2 : toString num ++ ": Name not found" ≠
      toString num ++ "Shepherded" := string_append_ne _ _ _ (by decide)
  have h3 : toString num ++ ": Name not found" ≠
      toString num ++ ": Responsible AD" := string_append_ne _ _ _ (by decide)
  unfold md_updates
  split_ifs <;> simp_all [hdbg]

theorem notfound_notin_ack (g : Globals) (dec : Decoders) (num : Int)
    (title : String) (f : Fetch (List Nat)) (st : Stats)
    (hdbg : g.DEBUG = false) :
    Event.out (toString num ++ ": Name not found") ∉
      (check_acknowledgments g dec num title f st).2.1 := by
  have hlc : lastChar (toString num ++ ": Name not found") = some 'd' :=
    lastChar_append _ _ _ rfl
  have h4 : toString num ++ ": Name not found" ≠
      "check_acknowledgments failed with ConnectionError" :=
    ne_of_lastChar (by rw [hlc]; decide)
  have h5 : toString num ++ ": Name not found" ≠ "UnicodeDecodeError" :=
    ne_of_lastChar (by rw [hlc]; decide)
  have h6 : toString num ++ ": Name not found" ≠
      toString num ++ ": Contributed" := string_append_ne _ _ _ (by decide)
  unfold check_acknowledgments
  cases f with
  | connError => simp [hdbg, h4]
  | ok content =>
    cases hdc : decodeChain dec content with
    | none => simp [hdbg, hdc, h5]
    | some t =>
      simp only [hdc]
      split <;> by_cases hv : g.VERBOSE = true <;> simp_all [hdbg, h6]

theorem notfound_notin_ballot (g : Globals) (dec : Decoders) (num : Int)
    (title : String) (f : Fetch (List Nat)) (st : Stats)
    (hdbg : g.DEBUG = false) :
    Event.out (toString num ++ ": Name not found") ∉
      (check_ballot g dec num title f st).2.1 := by
  have hlc : lastChar (toString num ++ ": Name not found") = some 'd' :=
    lastChar_append _ _ _ rfl
  have h4 : toString num ++ ": Name not found" ≠
      "check_ballot failed with ConnectionError" :=
    ne_of_lastChar (by rw [hlc]; decide)
  have h5 : toString num ++ ": Name not found" ≠ "UnicodeDecodeError" :=
    ne_of_lastChar (by rw [hlc]; decide)
  have h6 : toString num ++ ": Name not found" ≠
      toString num ++ ": Discussed" := string_append_ne _ _ _ (by decide)
  have h7 : toString num ++ ": Name not found" ≠
      toString num ++ ": Balloted" := string_append_ne _ _ _ (by decide)
  unfold check_ballot
  cases f with
  | connError => simp [hdbg, h4]
  | ok content =>
    cases hdc : decodeChain dec content with
    | none => simp [hdbg, hdc, h5]
    | some t =>
      simp only [hdc]
      split <;> split <;> by_cases hv : g.VERBOSE = true <;>
        simp_all [hdbg, h6, h7]

theorem notfound_notin_ackstage (g : Globals) (dec : Decoders) (inp : RfcIn)
    (st : Stats) (hdbg : g.DEBUG = false) :
    Event.out (toString inp.number ++ ": Name not found") ∉
      (ack_stage g dec inp st).2.1 := by
  unfold ack_stage
  split_ifs
  · exact notfound_notin_ack g dec inp.number inp.title inp.ackFetch st hdbg
  · simp

set_option maxRecDepth 4000 in
/-- C5 counterexample: for `exAuthorOnly` the target name is recorded as an
author, yet the `Name not found` diagnostic is still printed, because the
line only reflects the (overwritten) ballot-check result. -/
theorem c5_counterexample :
    (check_rfc gJane realDecoders exAuthorOnly emptyStats).1.AUTHOR =
      [(7005, "T5")] ∧
    Event.out "7005: Name not found" ∈
      (check_rfc gJane realDecoders exAuthorOnly emptyStats).2.1 :=
  ⟨rfl, by decide⟩

/-- C5 (amended): in a non-debug run with a successful metadata lookup and
a normally returning acknowledgment stage, the `Name not found` line is
printed for a document if and only if the ballot check returned `False` —
irrespective of any author, shepherd, AD or acknowledgment match. -/
theorem c5_amended (g : Globals) (dec : Decoders) (inp : RfcIn) (st : Stats)
    (md : Metadata) (st5 : Stats) (o5 : List Event) (b : Bool)
    (hmd : inp.mdFetch = .ok md) (hdbg : g.DEBUG = false)
    (hackE : ack_stage g dec inp (md_updates g md inp.number inp.title st).1 =
      (st5, o5, .ok b)) :
    (Event.out (toString inp.number ++ ": Name not found") ∈
      (check_rfc g dec inp st).2.1) ↔
    (check_ballot g dec inp.number inp.title inp.balFetch st5).2.2 =
      .ok false := by
  unfold check_rfc
  rw [hmd]
  simp only [hackE]
  have hnm := notfound_notin_md g md inp.number inp.title st hdbg
  have hna : Event.out (toString inp.number ++ ": Name not found") ∉ o5 := by
    have h := notfound_notin_ackstage g dec inp
      (md_updates g md inp.number inp.title st).1 hdbg
    rw [hackE] at h
    exact h
  rcases hbal : check_ballot g dec inp.number inp.title inp.balFetch st5
    with ⟨st6, o6, r6⟩
  simp only [hbal]
  have hnb : Event.out (toString inp.number ++ ": Name not found") ∉ o6 := by
    have h := notfound_notin_ballot g dec inp.number inp.title inp.balFetch
      st5 hdbg
    rw [hbal] at h
    exact h
  cases r6 with
  | error e => simp [hdbg, hnm, hna, hnb]
  | ok result =>
    cases result with
    | false => simp [hdbg, hnm, hna, hnb]
    | true => simp [hdbg, hnm, hna, hnb]

set_option maxRecDepth 4000 in
/-- Witness for C5 (amended) at the concrete input `exAuthorOnly`. -/
theorem c5_amended_witness :
    (Event.out (toString exAuthorOnly.number ++ ": Name not found") ∈
      (check_rfc gJane realDecoders exAuthorOnly emptyStats).2.1) ↔
    (check_ballot gJane realDecoders exAuthorOnly.number exAuthorOnly.title
      exAuthorOnly.balFetch
      { emptyStats with AUTHOR := [(7005, "T5")] }).2.2 = .ok false :=
  c5_amended gJane realDecoders exAuthorOnly emptyStats
    { authors := ["Jane Doe"], shepherd := none, ad := none }
    { emptyStats with AUTHOR := [(7005, "T5")] }
    [Event.netRequest (RFC_EDITOR_URL ++ "/rfc/rfc7005.txt"),
     Event.out "check_acknowledgments failed with ConnectionError"]
    false rfl rfl rfl

/-- C10: the Latin-1 fallback decoder is total, so for any UTF-8 decoder
behaviour the decode chain always yields a bound text, both text checks
return normally (the double-failure branch and its `NameError` are
unreachable), the failed category is never touched by them, and a whole
run from the empty state ends with an empty failed category and no raised
exceptions. -/
theorem c10_latin1_total_no_decode_failure
    (u : List Nat → Option String) (g : Globals) (num : Int)
    (title : String) (f : Fetch (List Nat)) (st : Stats) (bs : List Nat)
    (inputs : List RfcIn) :
    (decodeChain ⟨u, fun b => some (latin1Decode b)⟩ bs).isSome = true ∧
    isOkE (check_acknowledgments g ⟨u, fun b => some (latin1Decode b)⟩
      num title f st).2.2 = true ∧
    (check_acknowledgments g ⟨u, fun b => some (latin1Decode b)⟩
      num title f st).1.FAILED_CHECK = st.FAILED_CHECK ∧
    isOkE (check_ballot g ⟨u, fun b => some (latin1Decode b)⟩
      num title f st).2.2 = true ∧
    (check_ballot g ⟨u, fun b => some (latin1Decode b)⟩
      num title f st).1.FAILED_CHECK = st.FAILED_CHECK ∧
    (run_checks g ⟨u, fun b => some (latin1Decode b)⟩ inputs
      emptyStats).1.FAILED_CHECK = [] ∧
    (run_checks g ⟨u, fun b => some (latin1Decode b)⟩ inputs
      emptyStats).2.2 = [] :=
  ⟨decodeChain_total u bs,
   (check_ack_real g u num title f st).1,
   (check_ack_real g u num title f st).2,
   (check_ballot_real g u num title f st).1,
   (check_ballot_real g u num title f st).2,
   (run_checks_real g u inputs emptyStats).1,
   (run_checks_real g u inputs emptyStats).2⟩
